import Mathlib

/-!
Shallow embedding of the `ai-hype-watch` pipeline (src/index.ts).

The program is a sequential pipeline: a Scout fetches news articles (with a
24h article-list cache), a Gatekeeper classifies each candidate for
relevance, an Investigator produces a structured analysis per accepted
article (with a content-hashed analysis cache), and a Reporter renders an
HTML dashboard.  External collaborators (the news provider, the chat
completion provider, `JSON.parse`, `md5`, `marked`, the clock) are modelled
as oracles and parameters; the filesystem caches are modelled as
association lists; side effects (network calls, rate-limit pauses, cache
and report writes) are recorded in explicit event traces.
-/

set_option autoImplicit false
set_option maxRecDepth 200000

namespace HypeWatch

/-- Article record built by the Scout from a provider response
(interface `NewsArticle` in index.ts). -/
structure NewsArticle where
  title : String
  url : String
  source : String
  description : String
  deriving DecidableEq

/-- Raw article as delivered by the news provider (`response.data.articles`
elements); `description` may be null, modelled as `Option`. -/
structure RawArticle where
  title : String
  url : String
  sourceName : String
  description : Option String
  deriving DecidableEq

/-- Structured analysis produced by the Investigator (interface
`MotiveAnalysis`); `motive_score` may be absent in the model response,
modelled as `Option` (index.ts reads it with `?? 0` and a null check). -/
structure MotiveAnalysis where
  summary : String
  seller_description : String
  hidden_motive : String
  motive_score : Option Int
  critique : String
  deriving DecidableEq

/-- Entry persisted to the analysis cache by `analyzeMotive`
(the JSON blob written at line 245 of index.ts). -/
structure AnalysisCacheEntry where
  title : String
  url : String
  analysis : MotiveAnalysis
  timestamp : String
  deriving DecidableEq

/-- Per-article unit consumed by the Reporter (interface `AnalysisResult`). -/
structure AnalysisResult where
  title : String
  url : String
  source : String
  analysis : MotiveAnalysis
  deriving DecidableEq

/-- JSON values, used to model the parsed response of the Gatekeeper call. -/
inductive Json where
  | null : Json
  | bool (b : Bool) : Json
  | num (n : Int) : Json
  | str (s : String) : Json
  | arr (elems : List Json) : Json
  | obj (fields : List (String × Json)) : Json

/-- Property access `j.field` on a parsed JSON value: defined only on
objects, with the last duplicate key winning as in `JSON.parse`. -/
def Json.getField (j : Json) (key : String) : Option Json :=
  match j with
  | .obj fields => (fields.reverse.find? (fun p => p.1 == key)).map (·.2)
  | _ => none

/-- Outcome of the Gatekeeper's remote call composed with `JSON.parse`:
the completion call can throw, `JSON.parse` on the returned content
(`content || "\x7b\x7d"`) can throw, or it yields a JSON value. -/
inductive GateResult where
  | callError : GateResult
  | parseError : GateResult
  | parsed (j : Json) : GateResult

/-- Body of `validateRelevance` inside its `try` block: a call failure or a
parse failure is an exception; otherwise the strict comparison
`result.is_business_case === true` decides relevance. -/
def validateRelevanceBody (r : GateResult) : Except String Bool :=
  match r with
  | .callError => .error "Gatekeeper call failed"
  | .parseError => .error "Gatekeeper response was not valid JSON"
  | .parsed j =>
    .ok (match j.getField "is_business_case" with
      | some (.bool true) => true
      | _ => false)

/-- `validateRelevance` (index.ts lines 56-82): the whole body runs inside
`try`, and the `catch` resolves any exception to `false` (fail-safe). -/
def validateRelevance (r : GateResult) : Bool :=
  match validateRelevanceBody r with
  | .ok b => b
  | .error _ => false

example : validateRelevance (.parsed (.obj [("is_business_case", .bool true)])) = true := rfl
example : validateRelevance (.parsed (.obj [("is_business_case", .str "true")])) = false := rfl
example : validateRelevance .callError = false := rfl

/-! ## The HTML sanitizer (`sanitizeHtml`, index.ts lines 264-269)

`sanitizeHtml` chains three `String.replace` calls with global regexes:

  1. `/<script\b[^>]*>([\s\S]*?)<\/script>/gim` removed,
  2. `/on\w+="[^"]*"/g` removed,
  3. `/javascript:/gi` removed.

Each global regex replace is modelled as a left-to-right single-pass scan
over the character list: at every position the (unique, see below) match
attempt either succeeds, in which case the matched characters are dropped
and scanning resumes after them, or the scanner emits one character and
moves on.  For these three patterns backtracking never yields a second
viable match at a given start position: in pattern 1 the greedy `[^>]*`
must stop exactly at the first `>`, and the lazy `([\s\S]*?)` stops at the
first (case-insensitive) `</script>`; in pattern 2 the greedy `\w+` must
be the maximal word-character run (a shorter run would have to be followed
by `=`, which is itself a word-character position) and `[^"]*` stops at
the first `"`. -/

/-- JavaScript `\w` (ASCII word character). -/
def isWordChar (c : Char) : Bool :=
  c.isAlphanum || c == '_'

/-- Case-insensitive literal match: if `pat` is a prefix of `s` up to
`Char.toLower`, return the rest of `s`. -/
def matchCI : List Char → List Char → Option (List Char)
  | [], s => some s
  | _ :: _, [] => none
  | p :: ps, c :: cs => if p.toLower == c.toLower then matchCI ps cs else none

/-- Lazy `([\s\S]*?)<\/script>`: drop characters up to and including the
first case-insensitive occurrence of `</script>`; `none` if there is none. -/
def dropUntilCloseScript : List Char → Option (List Char)
  | [] => none
  | c :: rest =>
    match matchCI "</script>".data (c :: rest) with
    | some after => some after
    | none => dropUntilCloseScript rest

/-- Match attempt of `/<script\b[^>]*>([\s\S]*?)<\/script>/im` at the head
of the list; on success returns the input after the matched span. -/
def tryMatchScript (s : List Char) : Option (List Char) :=
  match matchCI "<script".data s with
  | none => none
  | some rest =>
    let boundaryOk := match rest with
      | [] => true
      | c :: _ => !isWordChar c
    if boundaryOk then
      match rest.dropWhile (fun c => c != '>') with
      | '>' :: rest3 => dropUntilCloseScript rest3
      | _ => none
    else none

/-- Match attempt of `/on\w+="[^"]*"/` (case-sensitive) at the head of the
list; on success returns the input after the matched span. -/
def tryMatchOnAttr (s : List Char) : Option (List Char) :=
  match s with
  | 'o' :: 'n' :: rest =>
    if (rest.takeWhile isWordChar).length ≥ 1 then
      match rest.dropWhile isWordChar with
      | '=' :: '"' :: rest3 =>
        match rest3.dropWhile (fun c => c != '"') with
        | '"' :: rest4 => some rest4
        | _ => none
      | _ => none
    else none
  | _ => none

/-- Match attempt of `/javascript:/i` at the head of the list. -/
def tryMatchJsUri (s : List Char) : Option (List Char) :=
  matchCI "javascript:".data s

/-- One global regex replace-with-empty pass, fuel-indexed to keep the
recursion structural: every successful match consumes at least one
character, so fuel equal to the input length always suffices. -/
def scrubAux (tryM : List Char → Option (List Char)) : Nat → List Char → List Char
  | 0, s => s
  | _ + 1, [] => []
  | fuel + 1, c :: rest =>
    match tryM (c :: rest) with
    | some after => scrubAux tryM fuel after
    | none => c :: scrubAux tryM fuel rest

/-- Global replace-with-empty of a pattern over a character list. -/
def runScrub (tryM : List Char → Option (List Char)) (s : List Char) : List Char :=
  scrubAux tryM s.length s

/-- `sanitizeHtml` (index.ts lines 264-269): the three global regex
replaces applied in source order. -/
def sanitizeHtml (html : String) : String :=
  ⟨runScrub tryMatchJsUri (runScrub tryMatchOnAttr (runScrub tryMatchScript html.data))⟩

/-- Boolean substring test used to state the sanitization claims. -/
def isPrefixChars : List Char → List Char → Bool
  | [], _ => true
  | _ :: _, [] => false
  | a :: as, b :: bs => a == b && isPrefixChars as bs

/-- Does `needle` occur (contiguously) anywhere in the list? -/
def containsSub (needle : List Char) : List Char → Bool
  | [] => isPrefixChars needle []
  | c :: rest => isPrefixChars needle (c :: rest) || containsSub needle rest

/-- Does `needle` occur as a substring of `hay`? -/
def strContains (hay needle : String) : Bool :=
  containsSub needle.data hay.data

example : sanitizeHtml "<script>alert(1)</script>" = "" := by decide
example : sanitizeHtml "a<script src=x>b</script>c" = "ac" := by decide
example : sanitizeHtml "<p onclick=\"do\">x</p>" = "<p >x</p>" := by decide
example : sanitizeHtml "<a href=\"javascript:boom\">x</a>" = "<a href=\"boom\">x</a>" := by decide
example : sanitizeHtml "<scripts>keep</scripts>" = "<scripts>keep</scripts>" := by decide
example :
    sanitizeHtml "<script>alert(1)</script><scr<script>z</script>ipt>alert(1)</script>" =
      "<script>alert(1)</script>" := by decide

/-! ## Configuration, side-effect events, and caches -/

/-- The tuning part of `CONFIG` (index.ts lines 17-25); the API keys and
endpoint identifiers play no role in the modelled control flow. -/
structure Config where
  newsMaxRequests : Nat
  newsBatchSize : Nat
  respectRPM : Nat
  deriving DecidableEq

/-- Observable side effects of a run, in program order. -/
inductive Event where
  /-- `axios.get` of one news provider page. -/
  | fetchPage (page : Nat) : Event
  /-- Gatekeeper chat-completion call. -/
  | relevanceCall : Event
  /-- Investigator chat-completion call. -/
  | llmCall : Event
  /-- `fs.writeFileSync` of one analysis cache entry. -/
  | cacheWrite (key : String) : Event
  /-- `fs.writeFileSync` of the topic's article-list cache. -/
  | cacheWriteArticles : Event
  /-- `await sleep(ms)` rate-limit pause. -/
  | pause (ms : Nat) : Event
  /-- `existsSync`/`mkdirSync` of the reports directory. -/
  | ensureReportsDir : Event
  /-- `fs.writeFileSync` of the rendered report. -/
  | writeFile (name : String) (content : String) : Event
  deriving DecidableEq

/-- The analysis cache directory: cache file name to stored entry.  A
write is a whole-file overwrite, modelled by prepending (lookup finds the
most recent binding first). -/
def AnalysisCache := List (String × AnalysisCacheEntry)

/-- `fs.readFileSync` of an analysis cache file, `none` when
`fs.existsSync` is false. -/
def AnalysisCache.read (cache : AnalysisCache) (key : String) : Option AnalysisCacheEntry :=
  (List.find? (fun p => p.1 == key) cache).map (·.2)

/-- State of the topic's article-list cache file as seen by `fetchNews`:
`none` when the file does not exist, otherwise its age in milliseconds
(`Date.now() - stats.mtimeMs`) and its parsed contents. -/
def ArticleListCache := Option (Nat × List NewsArticle)

/-- `CACHE_TTL` (index.ts line 89): 24 hours in milliseconds. -/
def cacheTTLms : Nat := 24 * 60 * 60 * 1000

/-- `MAX_PAGES` (index.ts line 117). -/
def maxPages : Nat := 3

/-- Outcome of one `axios.get` page request: the call throws, or delivers
the provider's article array (`response.data.articles`). -/
inductive PageResult where
  | fetchError (msg : String) : PageResult
  | ok (articles : List RawArticle) : PageResult

/-! ## The Scout (`fetchNews`, index.ts lines 87-178) -/

/-- The inner `for (const a of response.data.articles)` loop of
`fetchNews`: stop once enough articles are collected, skip URLs already
seen, otherwise build the `NewsArticle` (with `a.description || ""`) and
keep it exactly when the Gatekeeper accepts it. -/
def processPage (cfg : Config) (gate : NewsArticle → GateResult) :
    List RawArticle → List NewsArticle → List String →
      List NewsArticle × List String × List Event
  | [], collected, seen => (collected, seen, [])
  | a :: rest, collected, seen =>
    if collected.length ≥ cfg.newsMaxRequests then (collected, seen, [])
    else if seen.contains a.url then processPage cfg gate rest collected seen
    else
      let seen' := a.url :: seen
      let article : NewsArticle :=
        { title := a.title, url := a.url, source := a.sourceName,
          description := a.description.getD "" }
      let (collected', seen'', evs) :=
        if validateRelevance (gate article) then
          processPage cfg gate rest (collected ++ [article]) seen'
        else
          processPage cfg gate rest collected seen'
      (collected', seen'', Event.relevanceCall :: evs)

/-- The paging `while` loop of `fetchNews`: `fuel` counts the pages still
allowed by `page <= MAX_PAGES`; a page-level network error or an empty
page breaks out of the loop keeping what was collected. -/
def scoutLoop (cfg : Config) (pages : Nat → PageResult) (gate : NewsArticle → GateResult) :
    Nat → Nat → List NewsArticle → List String → List NewsArticle × List Event
  | _, 0, collected, _ => (collected, [])
  | page, fuel + 1, collected, seen =>
    if collected.length < cfg.newsMaxRequests then
      match pages page with
      | .fetchError _ => (collected, [Event.fetchPage page])
      | .ok articles =>
        if articles.isEmpty then (collected, [Event.fetchPage page])
        else
          let (collected', seen', evsIn) := processPage cfg gate articles collected seen
          let (final, evsRest) := scoutLoop cfg pages gate (page + 1) fuel collected' seen'
          (final, Event.fetchPage page :: (evsIn ++ evsRest))
    else (collected, [])

/-- The cache-consultation prelude of `fetchNews` (lines 92-108): a file
that exists, is younger than the TTL, and holds at least
`CONFIG.newsMaxRequests` articles yields `cachedData.slice(0,
CONFIG.newsMaxRequests)`; every other read falls through to the fetch. -/
def articleCacheHit (cfg : Config) (cache : ArticleListCache) : Option (List NewsArticle) :=
  match cache with
  | none => none
  | some (ageMs, cachedData) =>
    if ageMs < cacheTTLms then
      if cachedData.length ≥ cfg.newsMaxRequests then
        some (cachedData.take cfg.newsMaxRequests)
      else none
    else none

/-- `fetchNews` (index.ts lines 87-178): cache first; on fall-through,
page through the provider, throw if nothing relevant was collected,
otherwise overwrite the topic's cache file and return the collection. -/
def fetchNews (cfg : Config) (cache : ArticleListCache) (pages : Nat → PageResult)
    (gate : NewsArticle → GateResult) : Except String (List NewsArticle) × List Event :=
  match articleCacheHit cfg cache with
  | some articles => (.ok articles, [])
  | none =>
    let (collected, evs) := scoutLoop cfg pages gate 1 maxPages [] []
    if collected.length = 0 then
      (.error "NewsAPI returned no relevant articles after filtering.", evs)
    else
      (.ok collected, evs ++ [Event.cacheWriteArticles])

/-! ## The Investigator (`analyzeMotive`, index.ts lines 192-253)

The `md5` digest and the completion provider are external; `md5` is a
`String → String` parameter and the provider's answer (already composed
with `JSON.parse` and the cast to `MotiveAnalysis`) is an oracle value. -/

/-- The Investigator's fixed system prompt (index.ts line 193). -/
def investigatorSystemPrompt : String :=
  "You are a skeptical business investigator. Your job is to uncover corporate bias in news articles. You must respond in valid JSON."

/-- The Investigator's user prompt template (index.ts lines 194-207). -/
def investigatorUserPrompt (article : NewsArticle) : String :=
  "\n          INVESTIGATION TASK:\n          Article Title: \"" ++ article.title ++
    "\"\n          Source: \"" ++ article.source ++
    "\"\n          Description: \"" ++ article.description ++
    "\"\n          URL: " ++ article.url ++
    "\n\n          Analyze the article and return a JSON object with the following fields:\n          - \"summary\": A concise 2-sentence summary.\n          - \"seller_description\": What this organization actually sells based on source/description.\n          - \"hidden_motive\": Analysis of whether this promotes a business case for the source.\n          - \"motive_score\": An integer from 1-10 (10 = pure sales pitch).\n          - \"critique\": A 3-sentence skeptical critique.\n        "

/-- `article.url || article.title`: the URL unless it is falsy (empty). -/
def articleIdent (article : NewsArticle) : String :=
  if article.url = "" then article.title else article.url

/-- `articleHash` (index.ts lines 211-212): the md5 of the article identity
concatenated with the md5 fingerprint of the full prompt text. -/
def analysisCacheKey (md5 : String → String) (article : NewsArticle)
    (promptText : String) : String :=
  md5 (articleIdent article ++ md5 promptText)

/-- `cachePath` (index.ts line 214), relative to the cache directory. -/
def analysisCachePath (md5 : String → String) (article : NewsArticle)
    (promptText : String) : String :=
  "analysis_" ++ analysisCacheKey md5 article promptText ++ ".json"

/-- The cache file name `analyzeMotive` uses for a given article: the
prompt text fed to the fingerprint is the concatenation
`systemPrompt + userPrompt` (index.ts line 211). -/
def analysisPathFor (md5 : String → String) (article : NewsArticle) : String :=
  analysisCachePath md5 article (investigatorSystemPrompt ++ investigatorUserPrompt article)

/-- Outcome of the Investigator's remote call: the completion call throws,
`JSON.parse` on the returned content throws, or the content parses and is
cast to `MotiveAnalysis`. -/
inductive LLMResult where
  | callError (msg : String) : LLMResult
  | parseError (msg : String) : LLMResult
  | parsed (analysis : MotiveAnalysis) : LLMResult

/-- `analyzeMotive` (index.ts lines 192-253) as a state-passing function:
given the clock (`new Date().toISOString()`), the call outcome oracle and
the cache directory, return the result `{analysis, fromCache}` or the
propagated error, the new cache state, and the event trace.  A cache hit
returns the stored analysis without any event; a miss makes the call, and
on success writes `{title, url, analysis, timestamp}` to the cache before
returning. -/
def analyzeMotive (md5 : String → String) (nowIso : String) (llm : LLMResult)
    (cache : AnalysisCache) (article : NewsArticle) :
    Except String (MotiveAnalysis × Bool) × AnalysisCache × List Event :=
  let cachePath := analysisPathFor md5 article
  match cache.read cachePath with
  | some cachedResult => (.ok (cachedResult.analysis, true), cache, [])
  | none =>
    match llm with
    | .callError msg => (.error msg, cache, [Event.llmCall])
    | .parseError msg =>
      (.error ("Failed to parse LLM JSON response: " ++ msg), cache, [Event.llmCall])
    | .parsed analysisResult =>
      let entry : AnalysisCacheEntry :=
        { title := article.title, url := article.url,
          analysis := analysisResult, timestamp := nowIso }
      (.ok (analysisResult, false), (cachePath, entry) :: cache,
        [Event.llmCall, Event.cacheWrite cachePath])

/-! ## The Reporter (`generateHTMLReport`, index.ts lines 274-374)

`marked.parse` is an external markdown renderer, a `String → String`
parameter.  The two `toLocaleDateString('en-CA')` strings read from the
clock (`new Date()` for today and today minus 7 days) are inputs. -/

/-- The two formatted dates `generateHTMLReport` derives from the clock
(index.ts lines 275-280). -/
structure DateEnv where
  dateTo : String
  dateFrom : String
  deriving DecidableEq

/-- The inline `<style>` block (index.ts lines 289-310). -/
def reportCss : String :=
  "\n    <style>\n      body \x7b font-family: -apple-system, BlinkMacSystemFont, \"Segoe UI\", Roboto, Helvetica, Arial, sans-serif; line-height: 1.6; color: #333; max-width: 1200px; margin: 0 auto; padding: 20px; background-color: #f4f7f6; \x7d\n      .header \x7b text-align: center; margin-bottom: 30px; \x7d\n      .period-badge \x7b background: #34495e; color: white; padding: 5px 15px; border-radius: 20px; font-size: 0.9em; \x7d\n      table \x7b width: 100%; border-collapse: collapse; background: white; box-shadow: 0 1px 3px rgba(0,0,0,0.1); border-radius: 8px; overflow: hidden; \x7d\n      th, td \x7b padding: 15px; text-align: left; border-bottom: 1px solid #eee; vertical-align: top; \x7d\n      th \x7b background-color: #3498db; color: white; text-transform: uppercase; font-size: 13px; \x7d\n      \n      /* Style the parsed Markdown content */\n      .analysis-content h1, .analysis-content h2 \x7b font-size: 1.1em; margin-top: 0; \x7d\n      .analysis-content p \x7b margin: 0 0 10px 0; \x7d\n      .analysis-content ul \x7b padding-left: 20px; margin: 0; \x7d\n      .analysis-content strong \x7b color: #2c3e50; \x7d\n      \n      .score-badge \x7b display: inline-block; padding: 4px 12px; border-radius: 20px; font-weight: bold; color: white; min-width: 40px; text-align: center; \x7d\n      .high-risk \x7b background-color: #e74c3c; \x7d\n      .med-risk \x7b background-color: #f39c12; \x7d\n      .low-risk \x7b background-color: #27ae60; \x7d\n      a \x7b color: #3498db; text-decoration: none; \x7d\n    </style>\n  "

/-- The risk-tier CSS class picked from `motive_score ?? 0`
(index.ts lines 315-319). -/
def scoreCls (score : Int) : String :=
  if score ≥ 8 then "high-risk" else if score ≥ 4 then "med-risk" else "low-risk"

/-- The score badge text: the score, or `N/A` when it is
`undefined`/`null` (index.ts line 337). -/
def badgeText (motive_score : Option Int) : String :=
  match motive_score with
  | some n => toString n
  | none => "N/A"

/-- `formattedAnalysis` (index.ts lines 322-327): the four free-text
fields, each rendered by `marked.parse` and then sanitized. -/
def formattedAnalysis (mp : String → String) (a : MotiveAnalysis) : String :=
  "\n      <p><strong>Summary:</strong> " ++ sanitizeHtml (mp a.summary) ++
    "</p>\n      <p><strong>Seller Identity:</strong> " ++ sanitizeHtml (mp a.seller_description) ++
    "</p>\n      <p><strong>Hidden Motive:</strong> " ++ sanitizeHtml (mp a.hidden_motive) ++
    "</p>\n      <p><strong>Critique:</strong> <em>" ++ sanitizeHtml (mp a.critique) ++
    "</em></p>\n    "

/-- One `<tr>` of the report table (index.ts lines 312-340). -/
def renderRow (mp : String → String) (res : AnalysisResult) : String :=
  "\n      <tr>\n        <td>\n          <strong>" ++ res.title ++
    "</strong><br>\n          <small>Source: " ++ res.source ++
    "</small><br>\n          <small><a href=\"" ++ res.url ++
    "\" target=\"_blank\">Read Article &rarr;</a></small>\n        </td>\n        <td class=\"analysis-content\">" ++
    formattedAnalysis mp res.analysis ++
    "</td>\n        <td><span class=\"score-badge " ++ scoreCls (res.analysis.motive_score.getD 0) ++
    "\">" ++ badgeText res.analysis.motive_score ++
    "</span></td>\n      </tr>\n    "

/-- `htmlContent` (index.ts lines 342-370). -/
def reportHtml (mp : String → String) (dates : DateEnv) (results : List AnalysisResult) : String :=
  let periodString := dates.dateFrom ++ " to " ++ dates.dateTo
  let rows := String.join (results.map (renderRow mp))
  "\n    <!DOCTYPE html>\n    <html lang=\"en\">\n    <head>\n        <meta charset=\"UTF-8\">\n        <meta name=\"viewport\" content=\"width=device-width, initial-scale=1.0\">\n        <title>AI Hype-Watch: " ++
    periodString ++ "</title>\n        " ++ reportCss ++
    "\n    </head>\n    <body>\n        <div class=\"header\">\n            <h1>🕵️‍♂️ AI Hype-Watch: Skeptical Investigator Report</h1>\n            <span class=\"period-badge\">Period: " ++
    periodString ++
    "</span>\n        </div>\n        <table>\n            <thead>\n                <tr>\n                    <th style=\"width: 25%\">Article & Source</th>\n                    <th style=\"width: 65%\">Investigation Findings</th>\n                    <th style=\"width: 10%\">Bias Score</th>\n                </tr>\n            </thead>\n            <tbody>\n                " ++
    rows ++
    "\n            </tbody>\n        </table>\n    </body>\n    </html>\n  "

/-- `generateHTMLReport` (index.ts lines 274-374): builds the HTML content
from the results and the clock-derived dates, ensures the reports
directory exists, and itself writes `reports/report_<dateTo>.html`.  The
returned string is the written content; the event list is the function's
own filesystem activity. -/
def generateHTMLReport (mp : String → String) (dates : DateEnv)
    (results : List AnalysisResult) : String × List Event :=
  let htmlFileName := "report_" ++ dates.dateTo ++ ".html"
  let htmlContent := reportHtml mp dates results
  (htmlContent, [Event.ensureReportsDir, Event.writeFile htmlFileName htmlContent])

/-! ## The Orchestrator (`runMAS`, index.ts lines 379-421) -/

/-- All external inputs of one run: digest and markdown renderer, clock
readings, initial cache states, and the three remote-call oracles. -/
structure MASEnv where
  md5 : String → String
  nowIso : String
  dates : DateEnv
  markedParse : String → String
  articleCache : ArticleListCache
  analysisCache : AnalysisCache
  pages : Nat → PageResult
  gate : NewsArticle → GateResult
  llm : NewsArticle → LLMResult

/-- The per-article `for` loop of `runMAS` (index.ts lines 386-409):
each article's analysis runs inside its own `try`; a success is pushed to
`finalResults` and, when it was a live (non-cached) call and the article
is not the last one, is followed by a rate-limit pause; a failure is
logged and the loop continues with the next article. -/
def masLoop (cfg : Config) (env : MASEnv) :
    Nat → Nat → AnalysisCache → List NewsArticle →
      List AnalysisResult × AnalysisCache × List Event
  | _, _, cache, [] => ([], cache, [])
  | index, total, cache, article :: rest =>
    match analyzeMotive env.md5 env.nowIso (env.llm article) cache article with
    | (.ok (analysis, fromCache), cache', evs) =>
      let res : AnalysisResult :=
        { title := article.title, url := article.url,
          source := article.source, analysis := analysis }
      let pauseEvs :=
        if fromCache = false ∧ index < total - 1 then [Event.pause cfg.respectRPM] else []
      let (results, cacheF, evsRest) := masLoop cfg env (index + 1) total cache' rest
      (res :: results, cacheF, evs ++ pauseEvs ++ evsRest)
    | (.error _, cache', evs) =>
      let (results, cacheF, evsRest) := masLoop cfg env (index + 1) total cache' rest
      (results, cacheF, evs ++ evsRest)

/-- Results-only view of the loop, used to state the orchestrator
properties. -/
def loopResults (env : MASEnv) : AnalysisCache → List NewsArticle → List AnalysisResult
  | _, [] => []
  | cache, article :: rest =>
    match analyzeMotive env.md5 env.nowIso (env.llm article) cache article with
    | (.ok (analysis, _), cache', _) =>
      { title := article.title, url := article.url,
        source := article.source, analysis := analysis } :: loopResults env cache' rest
    | (.error _, cache', _) => loopResults env cache' rest

/-- Cache-only view of the loop. -/
def loopCache (env : MASEnv) : AnalysisCache → List NewsArticle → AnalysisCache
  | cache, [] => cache
  | cache, article :: rest =>
    match analyzeMotive env.md5 env.nowIso (env.llm article) cache article with
    | (_, cache', _) => loopCache env cache' rest

/-- The `catch` block of `runMAS` (index.ts lines 413-418): on a terminal
error it still generates a report when some results were accumulated, then
exits with status 1. -/
def masCatchHandler (mp : String → String) (dates : DateEnv)
    (finalResults : List AnalysisResult) : Nat × List Event :=
  if finalResults.length > 0 then
    (1, (generateHTMLReport mp dates finalResults).2)
  else (1, [])

/-- Observable outcome of one `runMAS` run. -/
structure RunOutcome where
  exitCode : Nat
  results : Option (List AnalysisResult)
  html : Option String
  events : List Event

/-- `runMAS` (index.ts lines 379-421): fetch articles, loop over them, and
render the report; the surrounding `try`/`catch` turns a Scout-level throw
into the catch handler run with the (then still empty) accumulated
results and a non-zero exit.  On normal completion the process exits 0. -/
def runMAS (cfg : Config) (env : MASEnv) : RunOutcome :=
  match fetchNews cfg env.articleCache env.pages env.gate with
  | (.ok articles, fetchEvs) =>
    let (finalResults, _, loopEvs) :=
      masLoop cfg env 0 articles.length env.analysisCache articles
    let (html, reportEvs) := generateHTMLReport env.markedParse env.dates finalResults
    { exitCode := 0, results := some finalResults, html := some html,
      events := fetchEvs ++ loopEvs ++ reportEvs }
  | (.error _, fetchEvs) =>
    let (code, catchEvs) := masCatchHandler env.markedParse env.dates []
    { exitCode := code, results := none, html := none,
      events := fetchEvs ++ catchEvs }

/-! ## Shared concrete sample data for witnesses -/

/-- Identity digest: a concrete, injective stand-in for the external md5
function when a witness needs a computable hash. -/
def idDigest : String → String := fun s => s

/-- A concrete sample article. -/
def sampleArticle : NewsArticle :=
  { title := "A1", url := "https://example.test/1", source := "S1", description := "d1" }

/-- A concrete sample analysis. -/
def sampleAnalysis : MotiveAnalysis :=
  { summary := "sum", seller_description := "sell", hidden_motive := "mot",
    motive_score := some 7, critique := "crit" }

/-- A concrete sample analysis-cache entry for `sampleArticle`. -/
def sampleEntry : AnalysisCacheEntry :=
  { title := "A1", url := "https://example.test/1", analysis := sampleAnalysis,
    timestamp := "2026-10-01T00:00:00.000Z" }

/-- Second article of the 3-article scenario. -/
def scenarioArticle2 : NewsArticle :=
  { title := "A2", url := "https://example.test/2", source := "S2", description := "d2" }

/-- Third article of the 3-article scenario. -/
def scenarioArticle3 : NewsArticle :=
  { title := "A3", url := "https://example.test/3", source := "S3", description := "d3" }

/-- Concrete clock-derived dates for the scenarios. -/
def scenarioDates : DateEnv := { dateTo := "2026-10-12", dateFrom := "2026-10-05" }

/-- Configuration used by the scenarios (the source defaults with 3
articles requested). -/
def scenarioCfg : Config := { newsMaxRequests := 3, newsBatchSize := 20, respectRPM := 4500 }

/-- Environment of the 3-article scenario: the article-list cache is fresh
and holds the three articles, the analysis cache is empty, and the model
call fails exactly on article 2. -/
def scenarioEnv : MASEnv :=
  { md5 := idDigest
    nowIso := "2026-10-12T00:00:00.000Z"
    dates := scenarioDates
    markedParse := fun s => s
    articleCache := some (0, [sampleArticle, scenarioArticle2, scenarioArticle3])
    analysisCache := []
    pages := fun _ => .ok []
    gate := fun _ => .callError
    llm := fun a => if a.url == scenarioArticle2.url then .callError "boom"
      else .parsed sampleAnalysis }

/-! ## C10 and C5: the Gatekeeper -/

/-- C10: the Gatekeeper returns `true` exactly when the call succeeds, the
content parses, and the parsed object's `is_business_case` field is the
boolean `true`; truthy non-booleans such as the string `"true"` or the
number `1` yield `false`, as do call and parse failures. -/
theorem gatekeeper_true_iff_strict_bool (j : Json) :
    (validateRelevance (.parsed j) = true ↔
      j.getField "is_business_case" = some (.bool true))
    ∧ validateRelevance .callError = false
    ∧ validateRelevance .parseError = false
    ∧ validateRelevance (.parsed (.obj [("is_business_case", .str "true")])) = false
    ∧ validateRelevance (.parsed (.obj [("is_business_case", .num 1)])) = false := by
  refine ⟨?_, rfl, rfl, rfl, rfl⟩
  have hdef : validateRelevance (.parsed j) =
      (match j.getField "is_business_case" with
        | some (.bool true) => true
        | _ => false) := rfl
  rw [hdef]
  constructor
  · intro h
    cases hgf : j.getField "is_business_case" with
    | none => rw [hgf] at h; cases h
    | some jv =>
      rw [hgf] at h
      cases jv with
      | bool b => cases b with
        | true => rfl
        | false => cases h
      | null => cases h
      | num n => cases h
      | str s => cases h
      | arr es => cases h
      | obj fs => cases h
  · intro h
    rw [h]

/-- C5: every exception raised inside `validateRelevance`'s body — a call
failure or a malformed/unparseable response — is caught and resolved to
`false`; in those cases the function never returns `true` and never lets
the error escape. -/
theorem gatekeeper_fail_safe (r : GateResult) (msg : String) :
    (validateRelevanceBody r = .error msg → validateRelevance r = false)
    ∧ validateRelevance .callError = false
    ∧ validateRelevance .parseError = false := by
  refine ⟨?_, rfl, rfl⟩
  intro h
  unfold validateRelevance
  rw [h]

/-- C5 witness: the fail-safe theorem applied to a concrete call failure. -/
theorem gatekeeper_fail_safe_witness :
    validateRelevance .callError = false
    ∧ validateRelevance .callError = false
    ∧ validateRelevance .parseError = false :=
  gatekeeper_fail_safe .callError "Gatekeeper call failed" |>.imp_left (fun h => h rfl)

/-! ## C3: prompt fingerprint invalidates the analysis cache -/

/-- C3: for the same article, two different prompt texts yield different
analysis cache keys (and hence different cache file names), provided the
digest is collision-free on the strings involved (md5 is modelled as an
arbitrary injective digest). -/
theorem analysis_cache_key_prompt_sensitive (md5 : String → String)
    (article : NewsArticle) (p1 p2 : String)
    (hinj : Function.Injective md5) (hne : p1 ≠ p2) :
    analysisCachePath md5 article p1 ≠ analysisCachePath md5 article p2 := by
  intro heq
  have hdata : ("analysis_".data ++ (analysisCacheKey md5 article p1).data) ++ ".json".data
      = ("analysis_".data ++ (analysisCacheKey md5 article p2).data) ++ ".json".data := by
    simpa [analysisCachePath, String.data_append] using congrArg String.data heq
  have hkey : analysisCacheKey md5 article p1 = analysisCacheKey md5 article p2 :=
    String.ext (List.append_cancel_left (List.append_cancel_right hdata))
  have harg : articleIdent article ++ md5 p1 = articleIdent article ++ md5 p2 := by
    unfold analysisCacheKey at hkey
    exact hinj hkey
  have hfp : md5 p1 = md5 p2 := by
    have := congrArg String.data harg
    rw [String.data_append, String.data_append] at this
    exact String.ext (List.append_cancel_left this)
  exact hne (hinj hfp)

/-- C3 witness: with the identity digest, two concrete distinct prompts
give distinct cache paths for the sample article. -/
theorem analysis_cache_key_prompt_sensitive_witness :
    Function.Injective idDigest ∧ ("prompt one" : String) ≠ "prompt two"
    ∧ analysisCachePath idDigest sampleArticle "prompt one"
        ≠ analysisCachePath idDigest sampleArticle "prompt two" :=
  ⟨fun _ _ h => h, by decide,
    analysis_cache_key_prompt_sensitive idDigest sampleArticle "prompt one" "prompt two"
      (fun _ _ h => h) (by decide)⟩

/-! ## C2 and C6: the Investigator's cache discipline -/

/-- C2: a cache hit returns the stored analysis with `wasCached = true`,
leaves the cache unchanged, and performs no event at all (no model call,
no write); in the orchestrator loop a cached article additionally triggers
no rate-limit pause.  A cache miss whose model call parses returns
`wasCached = false` after writing `{title, url, analysis, timestamp}`
under the article's key, the write following the call and preceding the
return. -/
theorem investigator_cache_discipline :
    (∀ (md5 : String → String) (nowIso : String) (llm : LLMResult)
        (cache : AnalysisCache) (article : NewsArticle) (entry : AnalysisCacheEntry),
      cache.read (analysisPathFor md5 article) = some entry →
      analyzeMotive md5 nowIso llm cache article = (.ok (entry.analysis, true), cache, []))
    ∧ (∀ (md5 : String → String) (nowIso : String) (cache : AnalysisCache)
        (article : NewsArticle) (a : MotiveAnalysis),
      cache.read (analysisPathFor md5 article) = none →
      analyzeMotive md5 nowIso (.parsed a) cache article =
        (.ok (a, false),
          (analysisPathFor md5 article,
            { title := article.title, url := article.url,
              analysis := a, timestamp := nowIso }) :: cache,
          [Event.llmCall, Event.cacheWrite (analysisPathFor md5 article)]))
    ∧ (∀ (cfg : Config) (env : MASEnv) (index total : Nat) (cache : AnalysisCache)
        (article : NewsArticle) (rest : List NewsArticle) (entry : AnalysisCacheEntry),
      cache.read (analysisPathFor env.md5 article) = some entry →
      masLoop cfg env index total cache (article :: rest) =
        (({ title := article.title, url := article.url, source := article.source,
            analysis := entry.analysis } : AnalysisResult)
            :: (masLoop cfg env (index + 1) total cache rest).1,
          (masLoop cfg env (index + 1) total cache rest).2)) := by
  refine ⟨?_, ?_, ?_⟩
  · intro md5 nowIso llm cache article entry h
    simp [analyzeMotive, h]
  · intro md5 nowIso cache article a h
    simp [analyzeMotive, h]
  · intro cfg env index total cache article rest entry h
    have hstep : analyzeMotive env.md5 env.nowIso (env.llm article) cache article
        = (.ok (entry.analysis, true), cache, []) := by
      simp [analyzeMotive, h]
    simp only [masLoop]
    rw [hstep]
    simp

/-- C2 witness: the three cache-discipline statements applied to concrete
inputs (a singleton cache holding the sample entry, and the empty cache). -/
theorem investigator_cache_discipline_witness :
    analyzeMotive idDigest "2026-10-12T00:00:00.000Z" (.parsed sampleAnalysis)
        [(analysisPathFor idDigest sampleArticle, sampleEntry)] sampleArticle
      = (.ok (sampleEntry.analysis, true),
          [(analysisPathFor idDigest sampleArticle, sampleEntry)], [])
    ∧ analyzeMotive idDigest "2026-10-12T00:00:00.000Z" (.parsed sampleAnalysis) [] sampleArticle
      = (.ok (sampleAnalysis, false),
          [(analysisPathFor idDigest sampleArticle,
            { title := sampleArticle.title, url := sampleArticle.url,
              analysis := sampleAnalysis, timestamp := "2026-10-12T00:00:00.000Z" })],
          [Event.llmCall, Event.cacheWrite (analysisPathFor idDigest sampleArticle)]) :=
  ⟨investigator_cache_discipline.1 idDigest _ _ _ sampleArticle sampleEntry (by decide),
    investigator_cache_discipline.2.1 idDigest _ _ sampleArticle sampleAnalysis rfl⟩

/-- C6: on a cache miss, a model response that fails `JSON.parse` makes
`analyzeMotive` throw (`Failed to parse LLM JSON response: ...`) for that
article — the error is propagated to the caller, no substitute value is
returned, the cache is unchanged, and no cache entry is written. -/
theorem investigator_parse_failure_fatal (md5 : String → String) (nowIso msg : String)
    (cache : AnalysisCache) (article : NewsArticle)
    (h : cache.read (analysisPathFor md5 article) = none) :
    analyzeMotive md5 nowIso (.parseError msg) cache article =
      (.error ("Failed to parse LLM JSON response: " ++ msg), cache, [Event.llmCall]) := by
  simp [analyzeMotive, h]

/-- C6 witness: the parse-failure theorem applied to the empty cache and
the sample article. -/
theorem investigator_parse_failure_fatal_witness :
    analyzeMotive idDigest "2026-10-12T00:00:00.000Z" (.parseError "Unexpected token")
        [] sampleArticle =
      (.error ("Failed to parse LLM JSON response: " ++ "Unexpected token"),
        [], [Event.llmCall]) :=
  investigator_parse_failure_fatal idDigest _ _ [] sampleArticle rfl

/-! ## C1: per-article failure isolation in the orchestrator -/

/-- The projection of `masLoop` to its accumulated results does not depend
on the index bookkeeping used only for the pacing pauses. -/
theorem masLoop_fst (cfg : Config) (env : MASEnv) :
    ∀ (arts : List NewsArticle) (index total : Nat) (cache : AnalysisCache),
      (masLoop cfg env index total cache arts).1 = loopResults env cache arts := by
  intro arts
  induction arts with
  | nil => intro index total cache; rfl
  | cons article rest ih =>
    intro index total cache
    simp only [masLoop, loopResults]
    rcases h : analyzeMotive env.md5 env.nowIso (env.llm article) cache article with ⟨e, cache', evs⟩
    cases e with
    | ok p =>
      rcases p with ⟨analysis, fromCache⟩
      simp [ih]
    | error msg => simp [ih]

/-- An erroring `analyzeMotive` leaves the cache untouched. -/
theorem analyzeMotive_error_cache (md5 : String → String) (nowIso : String)
    (llm : LLMResult) (cache : AnalysisCache) (article : NewsArticle)
    (msg : String) (cache' : AnalysisCache) (evs : List Event)
    (h : analyzeMotive md5 nowIso llm cache article = (.error msg, cache', evs)) :
    cache' = cache := by
  revert h
  simp only [analyzeMotive]
  cases hr : cache.read (analysisPathFor md5 article) with
  | some e => intro h; exact absurd (congrArg (fun t => t.1) h) (by simp)
  | none =>
    cases llm with
    | callError m => intro h; exact (congrArg (fun t => t.2.1) h).symm
    | parseError m => intro h; exact (congrArg (fun t => t.2.1) h).symm
    | parsed a => intro h; exact absurd (congrArg (fun t => t.1) h) (by simp)

/-- The loop's results split along a list append, threading the cache. -/
theorem loopResults_append (env : MASEnv) :
    ∀ (pre post : List NewsArticle) (cache : AnalysisCache),
      loopResults env cache (pre ++ post)
        = loopResults env cache pre ++ loopResults env (loopCache env cache pre) post := by
  intro pre
  induction pre with
  | nil => intro post cache; rfl
  | cons article rest ih =>
    intro post cache
    simp only [List.cons_append, loopResults, loopCache]
    rcases h : analyzeMotive env.md5 env.nowIso (env.llm article) cache article with ⟨e, cache', evs⟩
    cases e with
    | ok p => rcases p with ⟨analysis, fromCache⟩; simp [ih]
    | error msg => simp [ih]

/-- Normal completion of `runMAS` reports exactly the loop's accumulated
results and exits 0. -/
theorem runMAS_of_fetch_ok (cfg : Config) (env : MASEnv) (arts : List NewsArticle)
    (evs : List Event)
    (h : fetchNews cfg env.articleCache env.pages env.gate = (.ok arts, evs)) :
    (runMAS cfg env).results = some (loopResults env env.analysisCache arts)
      ∧ (runMAS cfg env).exitCode = 0 := by
  have hres := masLoop_fst cfg env arts 0 arts.length env.analysisCache
  rcases hm : masLoop cfg env 0 arts.length env.analysisCache arts with ⟨fr, cF, levs⟩
  rw [hm] at hres
  simp only [runMAS, h, hm]
  exact ⟨by rw [← hres], trivial⟩

/-- C1: an article whose analysis raises an error does not affect the
results contributed by the articles before or after it — the run's report
holds exactly the successfully analyzed articles in processing order
(`loopResults`) — and in the concrete 3-article scenario where article 2's
analysis call fails, the report contains exactly articles 1 and 3, in that
order. -/
theorem orchestrator_error_isolation :
    (∀ (env : MASEnv) (cache : AnalysisCache) (pre : List NewsArticle)
        (article : NewsArticle) (post : List NewsArticle) (msg : String),
      (analyzeMotive env.md5 env.nowIso (env.llm article) (loopCache env cache pre) article).1
          = .error msg →
      loopResults env cache (pre ++ article :: post) = loopResults env cache (pre ++ post))
    ∧ (∀ (cfg : Config) (env : MASEnv) (arts : List NewsArticle) (evs : List Event),
      fetchNews cfg env.articleCache env.pages env.gate = (.ok arts, evs) →
      (runMAS cfg env).results = some (loopResults env env.analysisCache arts))
    ∧ (runMAS scenarioCfg scenarioEnv).results =
        some [{ title := "A1", url := "https://example.test/1", source := "S1",
                analysis := sampleAnalysis },
              { title := "A3", url := "https://example.test/3", source := "S3",
                analysis := sampleAnalysis }] := by
  refine ⟨?_, ?_, by decide⟩
  · intro env cache pre article post msg herr
    rw [loopResults_append, loopResults_append]
    congr 1
    rcases h : analyzeMotive env.md5 env.nowIso (env.llm article) (loopCache env cache pre) article
      with ⟨e, cache', evs⟩
    have he : e = .error msg := by rw [h] at herr; exact herr
    subst he
    have hc : cache' = loopCache env cache pre :=
      analyzeMotive_error_cache _ _ _ _ _ _ _ _ h
    simp only [loopResults, h, hc]
  · intro cfg env arts evs h
    exact (runMAS_of_fetch_ok cfg env arts evs h).1

/-- C1 witness: failure isolation applied to the concrete scenario — with
article 2 failing after article 1 was processed, dropping it from the list
does not change the results. -/
theorem orchestrator_error_isolation_witness :
    (analyzeMotive scenarioEnv.md5 scenarioEnv.nowIso (scenarioEnv.llm scenarioArticle2)
        (loopCache scenarioEnv [] [sampleArticle]) scenarioArticle2).1 = .error "boom"
    ∧ loopResults scenarioEnv [] ([sampleArticle] ++ scenarioArticle2 :: [scenarioArticle3])
        = loopResults scenarioEnv [] ([sampleArticle] ++ [scenarioArticle3]) :=
  ⟨rfl, orchestrator_error_isolation.1 scenarioEnv [] [sampleArticle] scenarioArticle2
    [scenarioArticle3] "boom" rfl⟩

/-! ## C4: the Scout's article-list cache -/

/-- A provider stub that never returns articles. -/
def stubPages : Nat → PageResult := fun _ => .ok []

/-- A gatekeeper-call stub that always fails. -/
def stubGate : NewsArticle → GateResult := fun _ => .callError

/-- C4 counterexample: a fresh cache entry holding more articles than
requested is not used verbatim — with 3 cached articles and
`newsMaxRequests = 2`, the Scout returns only the first 2 (and performs no
network call), so the returned list differs from the cached one. -/
theorem scout_cache_not_verbatim :
    (0 : Nat) < cacheTTLms
    ∧ ([sampleArticle, scenarioArticle2, scenarioArticle3].length : Nat) ≥ 2
    ∧ (fetchNews { newsMaxRequests := 2, newsBatchSize := 20, respectRPM := 4500 }
        (some (0, [sampleArticle, scenarioArticle2, scenarioArticle3])) stubPages stubGate)
        = (.ok [sampleArticle, scenarioArticle2], [])
    ∧ [sampleArticle, scenarioArticle2] ≠ [sampleArticle, scenarioArticle2, scenarioArticle3] :=
  ⟨by decide, by decide, rfl, by decide⟩

/-- C4 (amended): a fresh cache entry with at least the requested number
of articles is used without any network or gatekeeper call, truncated to
the first `newsMaxRequests` articles; a read that misses, is expired, or
is undersized behaves exactly like a cache-absent read (the whole run is
the same as with no cache file). -/
theorem scout_cache_semantics :
    (∀ (cfg : Config) (ageMs : Nat) (cachedData : List NewsArticle)
        (pages : Nat → PageResult) (gate : NewsArticle → GateResult),
      ageMs < cacheTTLms → cfg.newsMaxRequests ≤ cachedData.length →
      fetchNews cfg (some (ageMs, cachedData)) pages gate
        = (.ok (cachedData.take cfg.newsMaxRequests), []))
    ∧ (∀ (cfg : Config) (ageMs : Nat) (cachedData : List NewsArticle)
        (pages : Nat → PageResult) (gate : NewsArticle → GateResult),
      cacheTTLms ≤ ageMs →
      fetchNews cfg (some (ageMs, cachedData)) pages gate = fetchNews cfg none pages gate)
    ∧ (∀ (cfg : Config) (ageMs : Nat) (cachedData : List NewsArticle)
        (pages : Nat → PageResult) (gate : NewsArticle → GateResult),
      cachedData.length < cfg.newsMaxRequests →
      fetchNews cfg (some (ageMs, cachedData)) pages gate = fetchNews cfg none pages gate) := by
  refine ⟨?_, ?_, ?_⟩
  · intro cfg ageMs cachedData pages gate hfresh hbig
    simp only [fetchNews, articleCacheHit]
    rw [if_pos hfresh, if_pos hbig]
  · intro cfg ageMs cachedData pages gate hexp
    simp only [fetchNews, articleCacheHit]
    rw [if_neg (by omega : ¬ ageMs < cacheTTLms)]
  · intro cfg ageMs cachedData pages gate hsmall
    have hnone : articleCacheHit cfg (some (ageMs, cachedData)) = none := by
      simp only [articleCacheHit]
      split_ifs with hfresh hbig
      · exact absurd hbig (by omega)
      · rfl
      · rfl
    simp only [fetchNews, hnone]
    rfl

/-- C4 witness: the three cache behaviours at concrete inputs — a fresh
big-enough entry served truncated with no events, and an expired read and
an undersized read each equal to the cache-absent run. -/
theorem scout_cache_semantics_witness :
    ((0 : Nat) < cacheTTLms ∧ (2 : Nat) ≤ [sampleArticle, scenarioArticle2].length
      ∧ fetchNews { newsMaxRequests := 2, newsBatchSize := 20, respectRPM := 4500 }
          (some (0, [sampleArticle, scenarioArticle2])) stubPages stubGate
        = (.ok ([sampleArticle, scenarioArticle2].take 2), []))
    ∧ (cacheTTLms ≤ cacheTTLms
      ∧ fetchNews scenarioCfg (some (cacheTTLms, [sampleArticle])) stubPages stubGate
        = fetchNews scenarioCfg none stubPages stubGate)
    ∧ (([sampleArticle].length : Nat) < 3
      ∧ fetchNews scenarioCfg (some (0, [sampleArticle])) stubPages stubGate
        = fetchNews scenarioCfg none stubPages stubGate) :=
  ⟨⟨by decide, by decide,
      scout_cache_semantics.1 _ 0 [sampleArticle, scenarioArticle2] stubPages stubGate
        (by decide) (by decide)⟩,
    ⟨le_refl _,
      scout_cache_semantics.2.1 scenarioCfg cacheTTLms [sampleArticle] stubPages stubGate
        (le_refl _)⟩,
    ⟨by decide,
      scout_cache_semantics.2.2 scenarioCfg 0 [sampleArticle] stubPages stubGate (by decide)⟩⟩

/-! ## C7: exit codes and the partial-results report -/

/-- An environment whose provider has nothing: the cache misses and the
first page comes back empty, so the Scout fails with its terminal error. -/
def emptyProviderEnv : MASEnv :=
  { scenarioEnv with articleCache := none }

/-- C7: a Scout-level terminal error makes the run exit 1 with no report;
when the Scout collects nothing (cache-absent and the paging loop yields
zero articles) it raises exactly that terminal error; normal completion
exits 0 and reports whatever subset of articles succeeded; and the `catch`
block still writes a report from the accumulated results whenever they are
non-empty before the non-zero exit. -/
theorem orchestrator_exit_codes :
    (∀ (cfg : Config) (env : MASEnv) (msg : String) (evs : List Event),
      fetchNews cfg env.articleCache env.pages env.gate = (.error msg, evs) →
      (runMAS cfg env).exitCode = 1 ∧ (runMAS cfg env).results = none)
    ∧ (∀ (cfg : Config) (env : MASEnv),
      articleCacheHit cfg env.articleCache = none →
      (scoutLoop cfg env.pages env.gate 1 maxPages [] []).1 = [] →
      (fetchNews cfg env.articleCache env.pages env.gate).1 =
        .error "NewsAPI returned no relevant articles after filtering.")
    ∧ (∀ (cfg : Config) (env : MASEnv) (arts : List NewsArticle) (evs : List Event),
      fetchNews cfg env.articleCache env.pages env.gate = (.ok arts, evs) →
      (runMAS cfg env).exitCode = 0
        ∧ (runMAS cfg env).results = some (loopResults env env.analysisCache arts))
    ∧ (∀ (mp : String → String) (dates : DateEnv) (finalResults : List AnalysisResult),
      finalResults ≠ [] →
      masCatchHandler mp dates finalResults =
        (1, [Event.ensureReportsDir,
          Event.writeFile ("report_" ++ dates.dateTo ++ ".html")
            (reportHtml mp dates finalResults)])) := by
  refine ⟨?_, ?_, ?_, ?_⟩
  · intro cfg env msg evs h
    simp [runMAS, h, masCatchHandler]
  · intro cfg env hhit hempty
    simp only [fetchNews, hhit]
    rcases hs : scoutLoop cfg env.pages env.gate 1 maxPages [] [] with ⟨collected, evs⟩
    have hc : collected = [] := by rw [hs] at hempty; exact hempty
    subst hc
    simp
  · intro cfg env arts evs h
    exact ⟨(runMAS_of_fetch_ok cfg env arts evs h).2, (runMAS_of_fetch_ok cfg env arts evs h).1⟩
  · intro mp dates finalResults h
    simp only [masCatchHandler, generateHTMLReport]
    rw [if_pos (by simpa using List.length_pos.mpr h)]

/-- C7 witness: the exit-code statements at concrete runs — an empty
provider gives exit 1 with the terminal scout error and no report, the
3-article scenario exits 0 with its partial results, and the catch handler
on a non-empty accumulation emits the report write. -/
theorem orchestrator_exit_codes_witness :
    ((runMAS scenarioCfg emptyProviderEnv).exitCode = 1
      ∧ (runMAS scenarioCfg emptyProviderEnv).results = none)
    ∧ (fetchNews scenarioCfg emptyProviderEnv.articleCache emptyProviderEnv.pages
        emptyProviderEnv.gate).1 =
      .error "NewsAPI returned no relevant articles after filtering."
    ∧ ((runMAS scenarioCfg scenarioEnv).exitCode = 0
      ∧ (runMAS scenarioCfg scenarioEnv).results =
          some (loopResults scenarioEnv scenarioEnv.analysisCache
            [sampleArticle, scenarioArticle2, scenarioArticle3]))
    ∧ masCatchHandler idDigest scenarioDates
        [{ title := "A1", url := "https://example.test/1", source := "S1",
           analysis := sampleAnalysis }] =
      (1, [Event.ensureReportsDir,
        Event.writeFile ("report_" ++ scenarioDates.dateTo ++ ".html")
          (reportHtml idDigest scenarioDates
            [{ title := "A1", url := "https://example.test/1", source := "S1",
               analysis := sampleAnalysis }])]) :=
  ⟨orchestrator_exit_codes.1 scenarioCfg emptyProviderEnv
      "NewsAPI returned no relevant articles after filtering." [Event.fetchPage 1] rfl,
    orchestrator_exit_codes.2.1 scenarioCfg emptyProviderEnv rfl rfl,
    orchestrator_exit_codes.2.2.1 scenarioCfg scenarioEnv
      [sampleArticle, scenarioArticle2, scenarioArticle3] [] rfl,
    orchestrator_exit_codes.2.2.2 idDigest scenarioDates _ (by decide)⟩

/-! ## C9: the Reporter's effects -/

/-- C9 counterexample: `generateHTMLReport` is not a pure render — it
performs its own filesystem writes (non-empty effect list), and for the
same result list its effects and output change with the clock (the report
file it writes is named after today's date). -/
theorem reporter_not_pure :
    (generateHTMLReport (fun s => s) scenarioDates []).2 ≠ []
    ∧ (generateHTMLReport (fun s => s) scenarioDates []).2
      ≠ (generateHTMLReport (fun s => s) { dateTo := "2026-10-13", dateFrom := "2026-10-06" } []).2 :=
  ⟨by decide, by decide⟩

/-- C9 (amended): the Reporter's output is a deterministic function of the
result list and the clock-derived dates (given the external markdown
renderer), and its only side effects are ensuring the reports directory
and writing the rendered document itself to `report_<date>.html` — the
written bytes being exactly the rendered HTML. -/
theorem reporter_effects (mp : String → String) (dates : DateEnv)
    (results : List AnalysisResult) :
    generateHTMLReport mp dates results =
      (reportHtml mp dates results,
        [Event.ensureReportsDir,
          Event.writeFile ("report_" ++ dates.dateTo ++ ".html")
            (reportHtml mp dates results)]) := rfl

/-! ## C8: sanitization of the analysis fields

The positive statement is proved by walking the report template: a
concrete template piece can be skipped when no occurrence of the needle
can start inside it (`safeChain`), and an interpolated hole can be skipped
when it contains no `<` at all. -/

/-- `overlapPre N s`: `N` and `s` agree on their common prefix (one is a
prefix of the other), i.e. an occurrence of `N` could start exactly at the
head of `s` given a suitable continuation. -/
def overlapPre : List Char → List Char → Bool
  | [], _ => true
  | _ :: _, [] => true
  | n :: ns, c :: cs => n == c && overlapPre ns cs

/-- `safeChain N C`: no occurrence of `N` can start anywhere inside `C`,
whatever text follows `C`. -/
def safeChain (N : List Char) : List Char → Bool
  | [] => true
  | c :: rest => !overlapPre N (c :: rest) && safeChain N rest

theorem overlapPre_nil (N : List Char) : overlapPre N [] = true := by
  cases N <;> rfl

theorem data_nil : ("" : String).data = [] := rfl

/-- Prefix matching across an append splits into overlap with the first
part and prefix matching of the needle's remainder on the second part. -/
theorem isPrefixChars_append (C : List Char) : ∀ (N b : List Char),
    isPrefixChars N (C ++ b) = (overlapPre N C && isPrefixChars (N.drop C.length) b) := by
  induction C with
  | nil => intro N b; simp [overlapPre_nil]
  | cons c C' ih =>
    intro N b
    cases N with
    | nil => simp [isPrefixChars, overlapPre]
    | cons n N' =>
      simp [isPrefixChars, overlapPre, ih, Bool.and_assoc]

/-- A `safeChain`-safe concrete piece can be dropped from the front of a
substring search. -/
theorem containsSub_safe_append (N : List Char) : ∀ (C b : List Char),
    safeChain N C = true →
    containsSub N (C ++ b) = containsSub N b := by
  intro C
  induction C with
  | nil => intro b _; rfl
  | cons c C' ih =>
    intro b h
    rw [safeChain, Bool.and_eq_true, Bool.not_eq_true'] at h
    have hstep : containsSub N ((c :: C') ++ b)
        = (isPrefixChars N ((c :: C') ++ b) || containsSub N (C' ++ b)) := rfl
    have hpre : isPrefixChars N ((c :: C') ++ b) = false := by
      rw [isPrefixChars_append (c :: C') N b, h.1, Bool.false_and]
    rw [hstep, hpre, Bool.false_or]
    exact ih b h.2

/-- A hole containing no `<` cannot start an occurrence of a needle that
begins with `<`. -/
theorem containsSub_ltFree_append (N : List Char) : ∀ (a b : List Char),
    a.all (fun c => c != '<') = true →
    containsSub ('<' :: N) (a ++ b) = containsSub ('<' :: N) b := by
  intro a
  induction a with
  | nil => intro b _; rfl
  | cons x a' ih =>
    intro b h
    rw [List.all_cons, Bool.and_eq_true] at h
    have hx : ('<' == x) = false := by
      have hne : x ≠ '<' := by simpa using h.1
      exact beq_eq_false_iff_ne.mpr (Ne.symm hne)
    simp only [List.cons_append, containsSub, isPrefixChars, hx, Bool.false_and, Bool.false_or]
    exact ih b h.2

/-- Specialization of the hole lemma to the `<script` needle. -/
theorem containsSub_script_hole (a b : List Char)
    (ha : a.all (fun c => c != '<') = true) :
    containsSub "<script".data (a ++ b) = containsSub "<script".data b := by
  have hN : "<script".data = '<' :: "script".data := rfl
  rw [hN]
  exact containsSub_ltFree_append "script".data a b ha

/-- The string contains no `<` character. -/
def ltFree (s : String) : Bool := s.data.all (fun c => c != '<')

theorem scoreCls_ltFree (score : Int) : ltFree (scoreCls score) = true := by
  unfold scoreCls ltFree
  split_ifs <;> decide

/-- The sanitizer erases the canonical attack payload entirely. -/
theorem sanitize_scriptField : sanitizeHtml "<script>alert(1)</script>" = "" := by decide

/-- The canonical attack payload of the spec's sanitization scenario. -/
def scriptField : String := "<script>alert(1)</script>"

/-- Conditions under which one rendered row is `<script`-free: the four
free-text analysis fields are exactly the attack payload (each sanitized
to the empty string), and the interpolated metadata — title, source, URL —
and the numeric badge contain no `<` at all. -/
def RowOk (r : AnalysisResult) : Prop :=
  r.analysis.summary = scriptField ∧ r.analysis.seller_description = scriptField
    ∧ r.analysis.hidden_motive = scriptField ∧ r.analysis.critique = scriptField
    ∧ ltFree r.title = true ∧ ltFree r.source = true ∧ ltFree r.url = true
    ∧ ltFree (badgeText r.analysis.motive_score) = true

/-- `foldl` of string append distributes over the accumulator at the
character-list level. -/
theorem data_foldl_append : ∀ (l : List String) (a : String),
    (l.foldl (fun r s => r ++ s) a).data
      = a.data ++ (l.foldl (fun r s => r ++ s) "").data := by
  intro l
  induction l with
  | nil => intro a; simp [data_nil]
  | cons x xs ih =>
    intro a
    simp only [List.foldl_cons]
    rw [ih (a ++ x), ih ("" ++ x)]
    simp [String.data_append, data_nil, List.append_assoc]

theorem data_join_cons (s : String) (l : List String) :
    (String.join (s :: l)).data = s.data ++ (String.join l).data := by
  simp only [String.join, List.foldl_cons]
  rw [data_foldl_append l ("" ++ s)]
  simp [String.data_append, data_nil]

/-- One well-behaved row can be skipped in the `<script` search. -/
theorem renderRow_skip (mp : String → String) (hmp : mp scriptField = scriptField)
    (r : AnalysisResult) (hr : RowOk r) (b : List Char) :
    containsSub "<script".data ((renderRow mp r).data ++ b)
      = containsSub "<script".data b := by
  obtain ⟨h1, h2, h3, h4, ht, hs, hu, hb⟩ := hr
  have hsan : sanitizeHtml (mp scriptField) = "" := by rw [hmp]; exact sanitize_scriptField
  have k0 : ∀ t, containsSub "<script".data
      (("\n      <tr>\n        <td>\n          <strong>").data ++ t)
      = containsSub "<script".data t :=
    fun t => containsSub_safe_append "<script".data _ t (by decide)
  have k1 : ∀ t, containsSub "<script".data
      (("</strong><br>\n          <small>Source: ").data ++ t)
      = containsSub "<script".data t :=
    fun t => containsSub_safe_append "<script".data _ t (by decide)
  have k2 : ∀ t, containsSub "<script".data
      (("</small><br>\n          <small><a href=\"").data ++ t)
      = containsSub "<script".data t :=
    fun t => containsSub_safe_append "<script".data _ t (by decide)
  have k3 : ∀ t, containsSub "<script".data
      (("\" target=\"_blank\">Read Article &rarr;</a></small>\n        </td>\n        <td class=\"analysis-content\">").data ++ t)
      = containsSub "<script".data t :=
    fun t => containsSub_safe_append "<script".data _ t (by decide)
  have kf0 : ∀ t, containsSub "<script".data
      (("\n      <p><strong>Summary:</strong> ").data ++ t)
      = containsSub "<script".data t :=
    fun t => containsSub_safe_append "<script".data _ t (by decide)
  have kf1 : ∀ t, containsSub "<script".data
      (("</p>\n      <p><strong>Seller Identity:</strong> ").data ++ t)
      = containsSub "<script".data t :=
    fun t => containsSub_safe_append "<script".data _ t (by decide)
  have kf2 : ∀ t, containsSub "<script".data
      (("</p>\n      <p><strong>Hidden Motive:</strong> ").data ++ t)
      = containsSub "<script".data t :=
    fun t => containsSub_safe_append "<script".data _ t (by decide)
  have kf3 : ∀ t, containsSub "<script".data
      (("</p>\n      <p><strong>Critique:</strong> <em>").data ++ t)
      = containsSub "<script".data t :=
    fun t => containsSub_safe_append "<script".data _ t (by decide)
  have kf4 : ∀ t, containsSub "<script".data
      (("</em></p>\n    ").data ++ t)
      = containsSub "<script".data t :=
    fun t => containsSub_safe_append "<script".data _ t (by decide)
  have k4 : ∀ t, containsSub "<script".data
      (("</td>\n        <td><span class=\"score-badge ").data ++ t)
      = containsSub "<script".data t :=
    fun t => containsSub_safe_append "<script".data _ t (by decide)
  have k5 : ∀ t, containsSub "<script".data
      (("\">").data ++ t)
      = containsSub "<script".data t :=
    fun t => containsSub_safe_append "<script".data _ t (by decide)
  have k6 : ∀ t, containsSub "<script".data
      (("</span></td>\n      </tr>\n    ").data ++ t)
      = containsSub "<script".data t :=
    fun t => containsSub_safe_append "<script".data _ t (by decide)
  have et : ∀ t, containsSub "<script".data (r.title.data ++ t)
      = containsSub "<script".data t :=
    fun t => containsSub_script_hole _ t ht
  have es : ∀ t, containsSub "<script".data (r.source.data ++ t)
      = containsSub "<script".data t :=
    fun t => containsSub_script_hole _ t hs
  have eu : ∀ t, containsSub "<script".data (r.url.data ++ t)
      = containsSub "<script".data t :=
    fun t => containsSub_script_hole _ t hu
  have ec : ∀ t, containsSub "<script".data
      ((scoreCls (r.analysis.motive_score.getD 0)).data ++ t)
      = containsSub "<script".data t :=
    fun t => containsSub_script_hole _ t (scoreCls_ltFree _)
  have eb : ∀ t, containsSub "<script".data
      ((badgeText r.analysis.motive_score).data ++ t)
      = containsSub "<script".data t :=
    fun t => containsSub_script_hole _ t hb
  simp only [renderRow, formattedAnalysis, h1, h2, h3, h4, hsan,
    String.data_append, data_nil, List.nil_append, List.append_assoc]
  rw [k0, et, k1, es, k2, eu, k3, kf0, kf1, kf2, kf3, kf4, k4, ec, k5, eb, k6]

/-- All rows of a report satisfying `RowOk` can be skipped together. -/
theorem rows_skip (mp : String → String) (hmp : mp scriptField = scriptField) :
    ∀ (results : List AnalysisResult), (∀ r ∈ results, RowOk r) → ∀ (b : List Char),
      containsSub "<script".data ((String.join (results.map (renderRow mp))).data ++ b)
        = containsSub "<script".data b := by
  intro results
  induction results with
  | nil => intro _ b; simp [String.join, data_nil]
  | cons r rs ih =>
    intro hall b
    simp only [List.map_cons]
    rw [data_join_cons, List.append_assoc, renderRow_skip mp hmp r (hall r (by simp)),
      ih (fun x hx => hall x (by simp [hx])) b]

/-- An analysis whose summary contains the attack payload next to a
crafted nested script element. -/
def advAnalysis : MotiveAnalysis :=
  { summary := "<script>alert(1)</script><scr<script>z</script>ipt>alert(1)</script>"
    seller_description := "s"
    hidden_motive := "m"
    motive_score := none
    critique := "c" }

/-- The result carrying `advAnalysis`. -/
def advResult : AnalysisResult :=
  { title := "Nested tags", url := "https://example.test/adv", source := "Wire",
    analysis := advAnalysis }

/-- C8 counterexample: a field that contains `<script>alert(1)</script>`
alongside a crafted nested script element still produces a rendered report
containing a full `<script>` element — the single-pass regex removal
reassembles a script tag from the surrounding fragments. -/
theorem reporter_script_bypass :
    strContains advAnalysis.summary "<script>alert(1)</script>" = true
    ∧ strContains (reportHtml (fun s => s) scenarioDates [advResult])
        "<script>alert(1)</script>" = true :=
  ⟨by decide, by decide⟩

/-- C8 (amended): for every result list whose analysis fields each consist
exactly of `<script>alert(1)</script>` (rendered verbatim by the markdown
renderer) and whose interpolated metadata (title, source, URL, numeric
badge) and report dates contain no `<`, the rendered report contains no
`<script` at all — the Reporter's per-field sanitization removes the
well-formed script element, the `on*="..."` attributes, and `javascript:`
occurrences in one pass over each field's rendered markup. -/
theorem reporter_sanitizes_script_fields (mp : String → String) (dates : DateEnv)
    (results : List AnalysisResult)
    (hmp : mp scriptField = scriptField)
    (hall : ∀ r ∈ results, RowOk r)
    (hfrom : ltFree dates.dateFrom = true) (hto : ltFree dates.dateTo = true) :
    strContains (reportHtml mp dates results) "<script" = false := by
  have h0 : ∀ t, containsSub "<script".data
      (("\n    <!DOCTYPE html>\n    <html lang=\"en\">\n    <head>\n        <meta charset=\"UTF-8\">\n        <meta name=\"viewport\" content=\"width=device-width, initial-scale=1.0\">\n        <title>AI Hype-Watch: ").data ++ t)
      = containsSub "<script".data t :=
    fun t => containsSub_safe_append "<script".data _ t (by decide)
  have hsep : ∀ t, containsSub "<script".data ((" to ").data ++ t)
      = containsSub "<script".data t :=
    fun t => containsSub_safe_append "<script".data _ t (by decide)
  have h1a : ∀ t, containsSub "<script".data (("</title>\n        ").data ++ t)
      = containsSub "<script".data t :=
    fun t => containsSub_safe_append "<script".data _ t (by decide)
  have hcss : ∀ t, containsSub "<script".data (reportCss.data ++ t)
      = containsSub "<script".data t :=
    fun t => containsSub_safe_append "<script".data _ t (by decide)
  have h1b : ∀ t, containsSub "<script".data
      (("\n    </head>\n    <body>\n        <div class=\"header\">\n            <h1>🕵️‍♂️ AI Hype-Watch: Skeptical Investigator Report</h1>\n            <span class=\"period-badge\">Period: ").data ++ t)
      = containsSub "<script".data t :=
    fun t => containsSub_safe_append "<script".data _ t (by decide)
  have h2 : ∀ t, containsSub "<script".data
      (("</span>\n        </div>\n        <table>\n            <thead>\n                <tr>\n                    <th style=\"width: 25%\">Article & Source</th>\n                    <th style=\"width: 65%\">Investigation Findings</th>\n                    <th style=\"width: 10%\">Bias Score</th>\n                </tr>\n            </thead>\n            <tbody>\n                ").data ++ t)
      = containsSub "<script".data t :=
    fun t => containsSub_safe_append "<script".data _ t (by decide)
  have efrom : ∀ t, containsSub "<script".data (dates.dateFrom.data ++ t)
      = containsSub "<script".data t :=
    fun t => containsSub_script_hole _ t hfrom
  have eto : ∀ t, containsSub "<script".data (dates.dateTo.data ++ t)
      = containsSub "<script".data t :=
    fun t => containsSub_script_hole _ t hto
  show containsSub "<script".data (reportHtml mp dates results).data = false
  simp only [reportHtml, String.data_append, List.append_assoc]
  rw [h0, efrom, hsep, eto, h1a, hcss, h1b, efrom, hsep, eto, h2,
    rows_skip mp hmp results hall]
  decide

/-- An analysis whose four free-text fields are exactly the attack
payload. -/
def benignAnalysis : MotiveAnalysis :=
  { summary := scriptField
    seller_description := scriptField
    hidden_motive := scriptField
    motive_score := none
    critique := scriptField }

/-- A concrete well-behaved result whose four analysis fields are exactly
the attack payload. -/
def benignResult : AnalysisResult :=
  { title := "Plain title", url := "https://example.test/r1", source := "Wire",
    analysis := benignAnalysis }

/-- C8 witness: the amended sanitization theorem applied to a concrete
report over one such result, with the markdown renderer returning the
payload verbatim. -/
theorem reporter_sanitizes_script_fields_witness :
    ((fun s : String => s) scriptField = scriptField
      ∧ (∀ r ∈ [benignResult], RowOk r)
      ∧ ltFree scenarioDates.dateFrom = true ∧ ltFree scenarioDates.dateTo = true)
    ∧ strContains (reportHtml (fun s => s) scenarioDates [benignResult]) "<script" = false := by
  have hall : ∀ r ∈ [benignResult], RowOk r := by
    intro r hr
    have hr' : r = benignResult := by simpa using hr
    subst hr'
    refine ⟨?_, ?_, ?_, ?_, ?_, ?_, ?_, ?_⟩ <;> decide
  exact ⟨⟨rfl, hall, rfl, rfl⟩,
    reporter_sanitizes_script_fields (fun s => s) scenarioDates [benignResult] rfl hall rfl rfl⟩

end HypeWatch
